import Mathlib

/-!
Verification of the temporian symbolic-graph core against its specification.

The development shallowly embeds the repository's Python sources:
  - `temporian/core/operators/arithmetic_scalar/divide.py`
  - `temporian/core/operators/arithmetic_scalar/subtract.py`
  - `temporian/implementation/numpy/data/sampling.py`
  - `temporian/implementation/numpy/operators/arithmetic/subtract.py`
  - `temporian/implementation/numpy/operators/test/select_test.py`
Parts of the repository that the claims depend on but whose source files are
not available (the scalar-operator base class, the operator registry, the
evaluator, the select implementation and the concrete event container) are
modelled from the specification; each such definition says so in its doc
comment.
-/

namespace Temporian

/-- The closed set of value dtypes (`temporian/core/data/dtype.py`). The spec
names 32/64-bit integers, 32/64-bit floats, string and boolean. -/
inductive DType where
  | FLOAT32
  | FLOAT64
  | INT32
  | INT64
  | STRING
  | BOOLEAN
deriving DecidableEq, Repr

/-- A feature of a symbolic Event: a name and a dtype. -/
structure Feature where
  name : String
  dtype : DType
deriving DecidableEq, Repr

/-- A symbolic Sampling. Identity (the `id` field) stands for Python object
reference identity: two Events share a Sampling exactly when their `sampling`
fields are equal. -/
structure Sampling where
  id : Nat
deriving DecidableEq, Repr

/-- A symbolic Event: a list of features plus a reference to a Sampling. -/
structure Event where
  features : List Feature
  sampling : Sampling
deriving DecidableEq, Repr

/-- A Python numeric scalar as accepted by the scalar-operator factories.
`pyBool` is included because Python's `bool` is a subclass of `int`, so
`isinstance(True, (float, int))` holds. Float payloads are modelled as
rationals. -/
inductive PyScalar where
  | pyFloat (q : ℚ)
  | pyInt (n : ℤ)
  | pyBool (b : Bool)
deriving DecidableEq, Repr

/-- Numeric value of a scalar operand (a Python bool arithmetically behaves
as 1 or 0). -/
def PyScalar.toRat : PyScalar → ℚ
  | .pyFloat q => q
  | .pyInt n => (n : ℚ)
  | .pyBool b => if b then 1 else 0

/-- Configuration errors raised at operator-construction / factory time.
Each constructor carries exactly the data the Python error message names. -/
inductive OpError where
  | unsupportedDType (featureName : String) (dtype : DType)
  | integerDivision (featureName : String) (dtype : DType)
  | invalidOperandTypes (numeratorType denominatorType : String)
deriving DecidableEq, Repr

/-- A constructed scalar-arithmetic operator node: the input event, the scalar
value, the order flag and the freshly built output event. -/
structure ScalarOp where
  event : Event
  value : PyScalar
  is_value_first : Bool
  output : Event
deriving DecidableEq, Repr

/-- Modelled from the spec: `BaseArithmeticScalarOperator.__init__`
(`temporian/core/operators/arithmetic_scalar/base.py` is not among the
sources). Per spec section 4.2, construction rejects any input feature whose
dtype is outside the operator's declared `supported_value_dtypes`, signaling
a configuration error naming the feature and its dtype; otherwise it builds
an output Event with one feature per input feature, the same feature names
and the same Sampling reference as the input. -/
def baseArithmeticScalarInit (supported : List DType) (event : Event)
    (value : PyScalar) (is_value_first : Bool) : Except OpError ScalarOp :=
  match event.features.find? (fun f => !(supported.contains f.dtype)) with
  | some f => .error (.unsupportedDType f.name f.dtype)
  | none =>
      .ok { event := event
            value := value
            is_value_first := is_value_first
            output := { features := event.features, sampling := event.sampling } }

/-- `SubtractScalarOperator.supported_value_dtypes`
(`arithmetic_scalar/subtract.py`). -/
def subtractSupportedValueDtypes : List DType :=
  [.FLOAT32, .FLOAT64, .INT32, .INT64]

/-- `DivideScalarOperator.supported_value_dtypes`
(`arithmetic_scalar/divide.py`). -/
def divideSupportedValueDtypes : List DType :=
  [.FLOAT32, .FLOAT64, .INT32, .INT64]

/-- `SubtractScalarOperator.__init__`: just the base-class validation. -/
def SubtractScalarOperator (event : Event) (value : PyScalar)
    (is_value_first : Bool) : Except OpError ScalarOp :=
  baseArithmeticScalarInit subtractSupportedValueDtypes event value is_value_first

/-- `DivideScalarOperator.__init__` (`arithmetic_scalar/divide.py`): the base
validation, then the integer-feature rejection loop:
`for feat in event.features: if feat.dtype in [INT32, INT64]: raise ...`. -/
def DivideScalarOperator (event : Event) (value : PyScalar)
    (is_value_first : Bool) : Except OpError ScalarOp := do
  let op ← baseArithmeticScalarInit divideSupportedValueDtypes event value
      is_value_first
  match event.features.find? (fun f => f.dtype == .INT32 || f.dtype == .INT64) with
  | some f => .error (.integerDivision f.name f.dtype)
  | none => .ok op

/-- A Python value in an operand position of a factory function. `scalar`
covers exactly the values for which `isinstance(x, (float, int))` is true
(floats, ints and bools); `other` is any other Python object, carrying its
type name for the error message. -/
inductive Operand where
  | event (e : Event)
  | scalar (v : PyScalar)
  | other (typeName : String)
deriving DecidableEq, Repr

/-- The Python `type(x)` name used in the factories' error message. -/
def Operand.typeName : Operand → String
  | .event _ => "Event"
  | .scalar (.pyFloat _) => "float"
  | .scalar (.pyInt _) => "int"
  | .scalar (.pyBool _) => "bool"
  | .other tn => tn

/-- `isinstance(x, Event)`. -/
def Operand.isEventInstance : Operand → Bool
  | .event _ => true
  | _ => false

/-- `isinstance(x, (float, int))`; true for bools since Python's `bool` is a
subclass of `int`. -/
def Operand.isScalarInstance : Operand → Bool
  | .scalar _ => true
  | _ => false

/-- `subtract_scalar(minuend, subtrahend)` (`arithmetic_scalar/subtract.py`):
dispatch on the runtime types of the operands, setting `is_value_first`
accordingly, or fail with the invalid-input-types error naming both operand
types. -/
def subtract_scalar (minuend subtrahend : Operand) : Except OpError Event :=
  match minuend, subtrahend with
  | .event e, .scalar v =>
      (SubtractScalarOperator e v false).map ScalarOp.output
  | .scalar v, .event e =>
      (SubtractScalarOperator e v true).map ScalarOp.output
  | m, s => .error (.invalidOperandTypes m.typeName s.typeName)

/-- `divide_scalar(numerator, denominator)` (`arithmetic_scalar/divide.py`). -/
def divide_scalar (numerator denominator : Operand) : Except OpError Event :=
  match numerator, denominator with
  | .event e, .scalar v =>
      (DivideScalarOperator e v false).map ScalarOp.output
  | .scalar v, .event e =>
      (DivideScalarOperator e v true).map ScalarOp.output
  | n, d => .error (.invalidOperandTypes n.typeName d.typeName)

/-- Modelled from the spec: concrete evaluation of a scalar-arithmetic
operator on one feature's value array (the numpy implementations of the
scalar operators are not among the sources). Per spec section 4.2 each output
value is `feature[i] OP scalar` when `is_value_first` is false and
`scalar OP feature[i]` when it is true. -/
def evalScalarOp (op_fn : ℚ → ℚ → ℚ) (op : ScalarOp) (xs : List ℚ) : List ℚ :=
  if op.is_value_first then xs.map (fun x => op_fn op.value.toRat x)
  else xs.map (fun x => op_fn x op.value.toRat)

/-- A numpy float64 cell: a not-a-number or a numeric value (modelled as a
rational). -/
inductive NpFloat where
  | nan
  | val (q : ℚ)
deriving DecidableEq, Repr

/-- Elementwise IEEE equality of two float cells: a not-a-number compares
equal to nothing, itself included. -/
def npFloatEq : NpFloat → NpFloat → Bool
  | .val a, .val b => a == b
  | _, _ => false

/-- `np.array_equal` on one-dimensional float arrays: equal shapes and
elementwise equality (`equal_nan` defaults to false, so arrays holding a
not-a-number are never equal). -/
def np_array_equal (a b : List NpFloat) : Bool :=
  a.length == b.length && (List.zip a b).all (fun p => npFloatEq p.1 p.2)

/-- `NumpySampling` (`temporian/implementation/numpy/data/sampling.py`):
index column names plus a dict from index-key tuple to a timestamp array.
The dict is modelled as an association list whose keys (the Python invariant)
are distinct. -/
structure NumpySampling where
  index : List String
  data : List (List Int × List NpFloat)
deriving DecidableEq, Repr

/-- Python dict key-view equality (`self.data.keys() != other.data.keys()`):
the two key sets are equal. -/
def keySetEq (a b : List (List Int)) : Bool :=
  a.all (fun k => b.contains k) && b.all (fun k => a.contains k)

/-- Dict lookup `d[k]` for a timestamp dict (total here; every use in
`numpySamplingEq` is guarded by the key-set check). -/
def dictGet (d : List (List Int × List NpFloat)) (k : List Int) : List NpFloat :=
  match d.find? (fun p => p.1 == k) with
  | some p => p.2
  | none => []

/-- The `other` argument of `NumpySampling.__eq__`: any Python object. -/
inductive PyObj where
  | sampling (s : NumpySampling)
  | nonSampling (typeName : String)
deriving Repr

/-- `NumpySampling.__eq__`: `False` for a non-`NumpySampling` operand; then
index-name list equality, dict key-set equality, and
`np.array_equal(self.data[index], other.data[index])` for every index key of
`self`. -/
def numpySamplingEq (self : NumpySampling) : PyObj → Bool
  | .nonSampling _ => false
  | .sampling other =>
      if !(self.index == other.index) then false
      else if !(keySetEq (self.data.map Prod.fst) (other.data.map Prod.fst)) then
        false
      else
        (self.data.map Prod.fst).all
          (fun k => np_array_equal (dictGet self.data k) (dictGet other.data k))

/-- Modelled from the spec: concrete event data
(`temporian/implementation/numpy/data/event.py` is not among the sources).
Per spec section 3 it holds, for each index key, a timestamp array (shared
through the sampling) and one value array per feature. -/
structure NumpyEventData where
  sampling : NumpySampling
  featureNames : List String
  featureValues : List (List Int × List (List NpFloat))
deriving DecidableEq, Repr

/-- Dict lookup for the per-key feature-column dict. -/
def dictGetCols (d : List (List Int × List (List NpFloat))) (k : List Int) :
    List (List NpFloat) :=
  match d.find? (fun p => p.1 == k) with
  | some p => p.2
  | none => []

/-- Modelled from the spec: equality of two concrete event data instances
(the comparison code is not among the sources). Per spec section 6: index
set equality, then per-index timestamp-array and value-array equality, with
the convention that not-a-number values are never considered mutually
equal. -/
def numpyEventEq (a b : NumpyEventData) : Bool :=
  numpySamplingEq a.sampling (.sampling b.sampling) &&
  a.featureNames == b.featureNames &&
  keySetEq (a.featureValues.map Prod.fst) (b.featureValues.map Prod.fst) &&
  a.featureValues.all (fun p =>
    p.2.length == (dictGetCols b.featureValues p.1).length &&
    ((List.zip p.2 (dictGetCols b.featureValues p.1)).all
      fun c => np_array_equal c.1 c.2))

/-- Errors of the operator registry. -/
inductive RegistryError where
  | duplicateKey (key : String)
  | notFound (key : String)
deriving DecidableEq, Repr

/-- Modelled from the spec: the operator registry
(`temporian/core/operator_lib.py` is not among the sources; `divide.py` and
`subtract.py` call `operator_lib.register_operator`). Per spec section 4.3
it maps a stable definition key to an operator class, here stood for by its
class name. -/
structure OperatorRegistry where
  entries : List (String × String)
deriving DecidableEq, Repr

/-- Modelled from the spec: `register_operator` inserts the class under its
definition key; a duplicate key is a fatal configuration error detected at
registration time. -/
def register_operator (r : OperatorRegistry) (key cls : String) :
    Except RegistryError OperatorRegistry :=
  if r.entries.any (fun p => p.1 == key) then .error (.duplicateKey key)
  else .ok ⟨r.entries ++ [(key, cls)]⟩

/-- Modelled from the spec: registry lookup; an unregistered key fails with
a not-found error. -/
def lookup_operator (r : OperatorRegistry) (key : String) :
    Except RegistryError String :=
  match r.entries.find? (fun p => p.1 == key) with
  | some p => .ok p.2
  | none => .error (.notFound key)

/-- An operator node as the evaluator sees it: an id, the ids of its input
events and the ids of its output events. -/
structure GOperator where
  opId : Nat
  inputs : List Nat
  outputs : List Nat
deriving DecidableEq, Repr

/-- The symbolic graph walked by the evaluator. -/
structure Graph where
  operators : List GOperator
deriving DecidableEq, Repr

/-- The producing operator of an event, if any. -/
def Graph.creatorOf (g : Graph) (e : Nat) : Option GOperator :=
  g.operators.find? (fun o => o.outputs.contains e)

/-- Modelled from the spec: steps 1 and 2 of the evaluator algorithm
(section 4.4; the evaluator source is not among the sources). Collects the
operators reachable backward from `target` in dependency order, stopping at
events already present in the supplied concrete-data mapping: such events
are treated as leaves even if they have a producing operator. `fuel` bounds
the recursion depth; any value above the graph's operator count suffices on
a DAG. -/
def scheduleEvent (g : Graph) (supplied : List Nat) :
    Nat → Nat → List GOperator
  | 0, _ => []
  | Nat.succ fuel, target =>
      if supplied.contains target then []
      else
        match g.creatorOf target with
        | none => []
        | some op =>
            (op.inputs.foldl
              (fun acc i => acc ++ scheduleEvent g supplied fuel i) []) ++ [op]

/-- Concrete-data lookup in the evaluation cache / input mapping. -/
def lookupData {α : Type} (m : List (Nat × α)) (e : Nat) : Option α :=
  (m.find? (fun p => p.1 == e)).map Prod.snd

/-- Modelled from the spec: step 3 of the evaluator algorithm. Runs each
scheduled operator through its implementation on the concrete data of its
inputs and caches the produced data keyed by output event id; fails when an
input is missing or the implementation fails. -/
def runOps {α : Type} (impl : Nat → List α → Option (List α)) :
    List GOperator → List (Nat × α) → Option (List (Nat × α))
  | [], cache => some cache
  | op :: rest, cache =>
      match op.inputs.mapM (lookupData cache) with
      | none => none
      | some ins =>
          match impl op.opId ins with
          | none => none
          | some outs => runOps impl rest (cache ++ op.outputs.zip outs)

/-- Modelled from the spec: `evaluate` (section 4.4). Schedules the
operators needed for the target, stopping at supplied events, runs them in
order and returns the concrete data cached for the target. -/
def evaluate {α : Type} (g : Graph) (impl : Nat → List α → Option (List α))
    (input_data : List (Nat × α)) (target : Nat) : Option α :=
  let ops := scheduleEvent g (input_data.map Prod.fst)
    (g.operators.length + 1) target
  match runOps impl ops input_data with
  | none => none
  | some cache => lookupData cache target

/-- Modelled from the spec: the select operator's concrete behaviour
(`temporian/core/operators/select.py` and its numpy implementation are not
among the sources; only `select_test.py` is). Per the spec's end-to-end
scenario it keeps exactly the named feature columns and leaves the Sampling
unchanged. -/
def selectFeatures (names : List String) (e : NumpyEventData) : NumpyEventData :=
  { sampling := e.sampling
    featureNames := names
    featureValues := e.featureValues.map (fun p =>
      (p.1, names.filterMap (fun n =>
        (e.featureNames.findIdx? (fun m => m == n)).bind (fun i => p.2[i]?)))) }

/-- The source table of `SelectOperatorTest.setUp`: index column `store_id`
with keys `A = 0`, `B = 1`, `C = 2`, two timestamps per key, and the feature
columns `sales`, `costs`, `weather` (with the test's `np.nan` cells). -/
def selectScenarioInput : NumpyEventData :=
  { sampling :=
      { index := ["store_id"]
        data := [([0], [.val 1, .val 2]),
                 ([1], [.val 3, .val 4]),
                 ([2], [.val 5, .val 6])] }
    featureNames := ["sales", "costs", "weather"]
    featureValues :=
      [([0], [[.val 10, .nan], [.val (-1), .val (-2)], [.val 0, .val 32]]),
       ([1], [[.val 12, .val 13], [.val (-3), .val (-4)], [.val 27, .val 28]]),
       ([2], [[.val 14, .val 15], [.nan, .val (-6)], [.val 29, .nan]])] }

/-- The concrete event data built directly from the narrower source table of
`test_select_with_core` / `test_select_one_feature` (`store_id`, `timestamp`
and `sales` only). -/
def selectScenarioExpected : NumpyEventData :=
  { sampling :=
      { index := ["store_id"]
        data := [([0], [.val 1, .val 2]),
                 ([1], [.val 3, .val 4]),
                 ([2], [.val 5, .val 6])] }
    featureNames := ["sales"]
    featureValues :=
      [([0], [[.val 10, .nan]]),
       ([1], [[.val 12, .val 13]]),
       ([2], [[.val 14, .val 15]])] }

/-- The one-operator graph of `test_select_with_core`: event 0 is the source
event, operator 1 is the select operator, event 2 its output. -/
def selectGraph : Graph :=
  { operators := [{ opId := 1, inputs := [0], outputs := [2] }] }

/-- The implementation mapping for `selectGraph`: operator 1 runs the select
of the single feature `sales` on its single input. -/
def selectImpl (opId : Nat) (ins : List NumpyEventData) :
    Option (List NumpyEventData) :=
  if opId == 1 then ins.head?.map (fun e => [selectFeatures ["sales"] e])
  else none

/-! ## Helper lemmas -/

/-- `bind` of a successful `Except` computation. -/
lemma except_ok_bind {ε α β : Type} (x : α) (k : α → Except ε β) :
    ((Except.ok x : Except ε α) >>= k) = k x := rfl

/-- `bind` of a failed `Except` computation. -/
lemma except_error_bind {ε α β : Type} (er : ε) (k : α → Except ε β) :
    ((Except.error er : Except ε α) >>= k) = Except.error er := rfl

/-- Construction through the base validation succeeds when every feature
dtype is supported, and yields the output event sharing names and
sampling. -/
lemma baseArithmeticScalarInit_ok (supported : List DType) (e : Event)
    (v : PyScalar) (b : Bool) (h : ∀ f ∈ e.features, f.dtype ∈ supported) :
    baseArithmeticScalarInit supported e v b =
      .ok { event := e, value := v, is_value_first := b,
            output := { features := e.features, sampling := e.sampling } } := by
  have hnone : e.features.find? (fun f => !(supported.contains f.dtype)) = none := by
    rw [List.find?_eq_none]
    intro f hf
    simp [h f hf]
  unfold baseArithmeticScalarInit
  rw [hnone]

/-- `SubtractScalarOperator` succeeds on events whose features all have
supported dtypes. -/
lemma subtractScalarOperator_ok (e : Event) (v : PyScalar) (b : Bool)
    (h : ∀ f ∈ e.features, f.dtype ∈ subtractSupportedValueDtypes) :
    SubtractScalarOperator e v b =
      .ok { event := e, value := v, is_value_first := b,
            output := { features := e.features, sampling := e.sampling } } :=
  baseArithmeticScalarInit_ok _ e v b h

/-- `DivideScalarOperator` succeeds on events whose features are all
floating-point. -/
lemma divideScalarOperator_ok (e : Event) (v : PyScalar) (b : Bool)
    (h : ∀ f ∈ e.features, f.dtype = .FLOAT32 ∨ f.dtype = .FLOAT64) :
    DivideScalarOperator e v b =
      .ok { event := e, value := v, is_value_first := b,
            output := { features := e.features, sampling := e.sampling } } := by
  have hsupp : ∀ f ∈ e.features, f.dtype ∈ divideSupportedValueDtypes := by
    intro f hf
    rcases h f hf with h1 | h1 <;> simp [h1, divideSupportedValueDtypes]
  have hint : e.features.find?
      (fun f => f.dtype == DType.INT32 || f.dtype == DType.INT64) = none := by
    rw [List.find?_eq_none]
    intro f hf
    rcases h f hf with h1 | h1 <;> simp [h1]
  unfold DivideScalarOperator
  rw [baseArithmeticScalarInit_ok _ e v b hsupp, except_ok_bind, hint]

/-! ## Claim theorems -/

/-- C1: every event holding at least one INT32 or INT64 feature makes
`DivideScalarOperator` construction fail, for either operand order
(`is_value_first` false or true), with a configuration error naming a
feature of the event and its dtype — either the divide operator's
integer-rejection error on an integer feature, or (when the event also
holds a feature outside `supported_value_dtypes`) the base validation error
on that feature; no operator node is constructed. -/
theorem C1_divide_rejects_integer_features (e : Event) (v : PyScalar) (b : Bool)
    (h : ∃ f ∈ e.features, f.dtype = DType.INT32 ∨ f.dtype = DType.INT64) :
    ∃ f ∈ e.features,
      (DivideScalarOperator e v b = .error (.unsupportedDType f.name f.dtype) ∧
        f.dtype ∉ divideSupportedValueDtypes) ∨
      (DivideScalarOperator e v b = .error (.integerDivision f.name f.dtype) ∧
        (f.dtype = DType.INT32 ∨ f.dtype = DType.INT64)) := by
  cases hbase : e.features.find?
      (fun f => !(divideSupportedValueDtypes.contains f.dtype)) with
  | some f0 =>
      refine ⟨f0, List.mem_of_find?_eq_some hbase, Or.inl ⟨?_, ?_⟩⟩
      · unfold DivideScalarOperator baseArithmeticScalarInit
        rw [hbase, except_error_bind]
      · have hp := List.find?_some hbase
        simpa using hp
  | none =>
      obtain ⟨f1, hf1, hd1⟩ := h
      have hsome : (e.features.find?
          (fun f => f.dtype == DType.INT32 || f.dtype == DType.INT64)).isSome := by
        rw [List.find?_isSome]
        exact ⟨f1, hf1, by rcases hd1 with h1 | h1 <;> simp [h1]⟩
      obtain ⟨f2, hfind2⟩ := Option.isSome_iff_exists.mp hsome
      have hf2mem := List.mem_of_find?_eq_some hfind2
      have hf2p := List.find?_some hfind2
      refine ⟨f2, hf2mem, Or.inr ⟨?_, ?_⟩⟩
      · unfold DivideScalarOperator baseArithmeticScalarInit
        rw [hbase]
        simp only [except_ok_bind, hfind2]
      · simpa using hf2p

/-- C1 witness: a one-feature INT32 event is rejected by the divide
operator. -/
theorem C1_witness :
    ∃ f ∈ (Event.mk [⟨"sales", .INT32⟩] ⟨0⟩).features,
      (DivideScalarOperator ⟨[⟨"sales", .INT32⟩], ⟨0⟩⟩ (.pyFloat 2) false
          = .error (.unsupportedDType f.name f.dtype) ∧
        f.dtype ∉ divideSupportedValueDtypes) ∨
      (DivideScalarOperator ⟨[⟨"sales", .INT32⟩], ⟨0⟩⟩ (.pyFloat 2) false
          = .error (.integerDivision f.name f.dtype) ∧
        (f.dtype = DType.INT32 ∨ f.dtype = DType.INT64)) :=
  C1_divide_rejects_integer_features ⟨[⟨"sales", .INT32⟩], ⟨0⟩⟩ (.pyFloat 2) false
    ⟨⟨"sales", .INT32⟩, by simp, Or.inl rfl⟩

/-- C2: `subtract_scalar(event, v)` constructs the operator with
`is_value_first = false`, so each output value is `feature[i] - v`, while
`subtract_scalar(v, event)` constructs it with `is_value_first = true`, so
each output value is `v - feature[i]`; `divide_scalar` sets the order flag
the same way for numerator and denominator. The hypotheses restrict the
event's feature dtypes so that construction succeeds (`subtract` accepts the
four numeric dtypes; `divide` additionally rejects the integer ones). -/
theorem C2_scalar_order_flag (e : Event) (v : PyScalar)
    (hsub : ∀ f ∈ e.features, f.dtype ∈ subtractSupportedValueDtypes)
    (hdiv : ∀ f ∈ e.features, f.dtype = DType.FLOAT32 ∨ f.dtype = DType.FLOAT64) :
    (∃ op, SubtractScalarOperator e v false = .ok op ∧
      subtract_scalar (.event e) (.scalar v) = .ok op.output ∧
      op.is_value_first = false ∧
      ∀ xs, evalScalarOp (fun a b => a - b) op xs = xs.map (fun x => x - v.toRat)) ∧
    (∃ op, SubtractScalarOperator e v true = .ok op ∧
      subtract_scalar (.scalar v) (.event e) = .ok op.output ∧
      op.is_value_first = true ∧
      ∀ xs, evalScalarOp (fun a b => a - b) op xs = xs.map (fun x => v.toRat - x)) ∧
    (∃ op, DivideScalarOperator e v false = .ok op ∧
      divide_scalar (.event e) (.scalar v) = .ok op.output ∧
      op.is_value_first = false ∧
      ∀ xs, evalScalarOp (fun a b => a / b) op xs = xs.map (fun x => x / v.toRat)) ∧
    (∃ op, DivideScalarOperator e v true = .ok op ∧
      divide_scalar (.scalar v) (.event e) = .ok op.output ∧
      op.is_value_first = true ∧
      ∀ xs, evalScalarOp (fun a b => a / b) op xs = xs.map (fun x => v.toRat / x)) := by
  refine ⟨⟨_, subtractScalarOperator_ok e v false hsub, ?_, rfl, fun xs => rfl⟩,
          ⟨_, subtractScalarOperator_ok e v true hsub, ?_, rfl, fun xs => rfl⟩,
          ⟨_, divideScalarOperator_ok e v false hdiv, ?_, rfl, fun xs => rfl⟩,
          ⟨_, divideScalarOperator_ok e v true hdiv, ?_, rfl, fun xs => rfl⟩⟩
  · rw [show subtract_scalar (.event e) (.scalar v)
        = (SubtractScalarOperator e v false).map ScalarOp.output from rfl,
      subtractScalarOperator_ok e v false hsub]
    rfl
  · rw [show subtract_scalar (.scalar v) (.event e)
        = (SubtractScalarOperator e v true).map ScalarOp.output from rfl,
      subtractScalarOperator_ok e v true hsub]
    rfl
  · rw [show divide_scalar (.event e) (.scalar v)
        = (DivideScalarOperator e v false).map ScalarOp.output from rfl,
      divideScalarOperator_ok e v false hdiv]
    rfl
  · rw [show divide_scalar (.scalar v) (.event e)
        = (DivideScalarOperator e v true).map ScalarOp.output from rfl,
      divideScalarOperator_ok e v true hdiv]
    rfl

/-- C2 witness: `subtract_scalar(10, event)` over a FLOAT64 feature computes
`10 - feature[i]`, giving `7` on input `3`. -/
theorem C2_witness :
    ∃ op, SubtractScalarOperator ⟨[⟨"f", .FLOAT64⟩], ⟨0⟩⟩ (.pyInt 10) true = .ok op ∧
      subtract_scalar (.scalar (.pyInt 10)) (.event ⟨[⟨"f", .FLOAT64⟩], ⟨0⟩⟩)
        = .ok op.output ∧
      evalScalarOp (fun a b => a - b) op [3] = [7] := by
  obtain ⟨-, ⟨op, h1, h2, -, h4⟩, -, -⟩ :=
    C2_scalar_order_flag ⟨[⟨"f", .FLOAT64⟩], ⟨0⟩⟩ (.pyInt 10)
      (by decide) (by decide)
  refine ⟨op, h1, h2, ?_⟩
  rw [h4]
  norm_num [PyScalar.toRat]

/-- C3: whenever it is not the case that exactly one operand is an Event and
the other a numeric scalar instance, both factory functions reject the call
with the invalid-input-types configuration error naming both operand types
(this covers Event/Event, scalar/scalar, and non-numeric operands), and no
operator is constructed. -/
theorem C3_factories_require_one_event (a b : Operand)
    (h1 : ¬(a.isEventInstance = true ∧ b.isScalarInstance = true))
    (h2 : ¬(a.isScalarInstance = true ∧ b.isEventInstance = true)) :
    divide_scalar a b = .error (.invalidOperandTypes a.typeName b.typeName) ∧
    subtract_scalar a b = .error (.invalidOperandTypes a.typeName b.typeName) := by
  cases a <;> cases b <;>
    simp_all [Operand.isEventInstance, Operand.isScalarInstance,
      divide_scalar, subtract_scalar]

/-- C3 witness: the Event/Event combination is rejected by both factories
with the error naming the type pair. -/
theorem C3_witness :
    divide_scalar (.event ⟨[], ⟨0⟩⟩) (.event ⟨[], ⟨1⟩⟩)
        = .error (.invalidOperandTypes "Event" "Event") ∧
    subtract_scalar (.event ⟨[], ⟨0⟩⟩) (.event ⟨[], ⟨1⟩⟩)
        = .error (.invalidOperandTypes "Event" "Event") :=
  C3_factories_require_one_event (.event ⟨[], ⟨0⟩⟩) (.event ⟨[], ⟨1⟩⟩)
    (by decide) (by decide)

/-- Characterisation of `np.array_equal` as a proposition. -/
lemma np_array_equal_iff (a b : List NpFloat) :
    np_array_equal a b = true ↔
      a.length = b.length ∧ ∀ p ∈ List.zip a b, npFloatEq p.1 p.2 = true := by
  simp [np_array_equal]

/-- An array holding a not-a-number is `np.array_equal` to nothing. -/
lemma np_array_equal_nan (a : List NpFloat) (h : NpFloat.nan ∈ a)
    (b : List NpFloat) : ¬(np_array_equal a b = true) := by
  induction a generalizing b with
  | nil => cases h
  | cons x t ih =>
      cases b with
      | nil => simp [np_array_equal]
      | cons y u =>
          intro htrue
          rw [np_array_equal_iff] at htrue
          obtain ⟨hlen, hall⟩ := htrue
          rcases List.mem_cons.mp h with hx | ht
          · have hxy := hall (x, y) (by simp)
            rw [← hx] at hxy
            simp [npFloatEq] at hxy
          · refine ih ht u (np_array_equal_iff t u |>.mpr ⟨?_, ?_⟩)
            · simpa using hlen
            · intro p hp
              exact hall p (by simp [hp])

/-- Zipping a list with itself pairs each element with itself. -/
lemma zip_self_eq (a : List NpFloat) :
    List.zip a a = a.map (fun x => (x, x)) := by
  induction a with
  | nil => rfl
  | cons x t ih => simp [ih]

/-- `np.array_equal` of an array with itself holds exactly when the array is
free of not-a-number values. -/
lemma np_array_equal_self_iff (a : List NpFloat) :
    np_array_equal a a = true ↔ NpFloat.nan ∉ a := by
  constructor
  · intro h hmem
    exact np_array_equal_nan a hmem a h
  · intro h
    rw [np_array_equal_iff, zip_self_eq]
    refine ⟨rfl, fun p hp => ?_⟩
    obtain ⟨x, hx, rfl⟩ := List.mem_map.mp hp
    cases x with
    | nan => exact absurd hx h
    | val q => simp [npFloatEq]

/-- Key-set equality is reflexive. -/
lemma keySetEq_self (a : List (List Int)) : keySetEq a a = true := by
  simp only [keySetEq, Bool.and_self, List.all_eq_true]
  intro k hk
  simp [List.contains_iff_exists_mem_beq]
  exact hk

/-- Looking up an association-list entry's own key returns its value when
keys are distinct (the Python dict invariant). -/
lemma dictGet_self (d : List (List Int × List NpFloat))
    (hd : (d.map Prod.fst).Nodup) (p : List Int × List NpFloat) (hp : p ∈ d) :
    dictGet d p.1 = p.2 := by
  induction d with
  | nil => cases hp
  | cons q t ih =>
      rcases List.mem_cons.mp hp with h | h
      · subst h
        unfold dictGet
        rw [List.find?_cons_of_pos _ (by simp)]
      · have hq : q.1 ≠ p.1 := by
          have hnotin : q.1 ∉ t.map Prod.fst := by
            simpa using (List.nodup_cons.mp hd).1
          intro he
          exact hnotin (he ▸ List.mem_map_of_mem Prod.fst h)
        unfold dictGet
        rw [List.find?_cons_of_neg _ (by simpa using hq)]
        exact ih (List.nodup_cons.mp hd).2 h

/-- `NumpySampling.__eq__` of a sampling with itself holds exactly when no
per-index timestamp array holds a not-a-number. -/
lemma numpySamplingEq_self_iff (s : NumpySampling)
    (hd : (s.data.map Prod.fst).Nodup) :
    numpySamplingEq s (.sampling s) = true ↔
      ∀ p ∈ s.data, NpFloat.nan ∉ p.2 := by
  simp only [numpySamplingEq]
  rw [if_neg (by simp), if_neg (by simp [keySetEq_self]), List.all_eq_true]
  constructor
  · intro h p hp
    have hk := h p.1 (List.mem_map_of_mem Prod.fst hp)
    rw [dictGet_self s.data hd p hp] at hk
    exact (np_array_equal_self_iff p.2).mp hk
  · intro h k hk
    obtain ⟨p, hp, rfl⟩ := List.mem_map.mp hk
    rw [dictGet_self s.data hd p hp]
    exact (np_array_equal_self_iff p.2).mpr (h p hp)

/-- In a zip of column lists of equal length, a column holding a
not-a-number makes the columnwise `np.array_equal` check fail. -/
lemma zip_cols_all_false_of_nan (xs ys : List (List NpFloat))
    (col : List NpFloat) (hcol : col ∈ xs) (hnan : NpFloat.nan ∈ col)
    (hlen : xs.length = ys.length) :
    ((List.zip xs ys).all fun c => np_array_equal c.1 c.2) = false := by
  induction xs generalizing ys with
  | nil => cases hcol
  | cons x t ih =>
      cases ys with
      | nil => simp at hlen
      | cons y u =>
          simp only [List.zip_cons_cons, List.all_cons]
          rcases List.mem_cons.mp hcol with hx | ht
          · have : np_array_equal x y = false :=
              Bool.eq_false_iff.mpr (hx ▸ np_array_equal_nan col hnan y)
            rw [this, Bool.false_and]
          · rw [ih u ht (by simpa using hlen), Bool.and_false]

/-- C9: `NumpySampling` equality is reflexive exactly for NaN-free
samplings — `s == s` is `True` iff no per-index timestamp array holds a
not-a-number (so a sampling with a NaN timestamp is not equal to itself) —
and comparing a sampling with a value of any other type returns `False`
rather than raising. The hypothesis is the Python dict invariant that the
per-index keys are distinct. -/
theorem C9_sampling_eq_reflexive_iff_nan_free (s : NumpySampling)
    (hd : (s.data.map Prod.fst).Nodup) :
    (numpySamplingEq s (.sampling s) = true ↔
      ∀ p ∈ s.data, NpFloat.nan ∉ p.2) ∧
    (∀ tn, numpySamplingEq s (.nonSampling tn) = false) :=
  ⟨numpySamplingEq_self_iff s hd, fun _ => rfl⟩

/-- C9 witness: a sampling holding a NaN timestamp is not equal to itself,
and comparing it with a non-sampling value yields `False`. -/
theorem C9_witness :
    numpySamplingEq ⟨["store_id"], [([0], [NpFloat.nan])]⟩
      (.sampling ⟨["store_id"], [([0], [NpFloat.nan])]⟩) = false ∧
    numpySamplingEq ⟨["store_id"], [([0], [NpFloat.nan])]⟩
      (.nonSampling "int") = false := by
  obtain ⟨hiff, hother⟩ :=
    C9_sampling_eq_reflexive_iff_nan_free ⟨["store_id"], [([0], [NpFloat.nan])]⟩
      (by decide)
  refine ⟨Bool.eq_false_iff.mpr ?_, hother "int"⟩
  intro htrue
  have hnone := hiff.mp htrue ([0], [NpFloat.nan]) (by simp)
  simp at hnone

/-- C5: an instance compared with an identical instance — in particular one
agreeing with it even at every not-a-number position — is reported NOT
equal as soon as a not-a-number is present: for `NumpySampling`, a NaN in
any per-index timestamp array (with the dict invariant of distinct keys),
and for concrete event data, a NaN in any feature-value column. NaN never
compares equal to NaN at any position. -/
theorem C5_nan_never_equal :
    (∀ s : NumpySampling, (s.data.map Prod.fst).Nodup →
      (∃ p ∈ s.data, NpFloat.nan ∈ p.2) →
      numpySamplingEq s (.sampling s) = false) ∧
    (∀ e : NumpyEventData,
      (∃ p ∈ e.featureValues, ∃ col ∈ p.2, NpFloat.nan ∈ col) →
      numpyEventEq e e = false) := by
  constructor
  · rintro s hd ⟨p, hp, hnan⟩
    refine Bool.eq_false_iff.mpr fun htrue => ?_
    exact (numpySamplingEq_self_iff s hd |>.mp htrue) p hp hnan
  · rintro e ⟨p, hp, col, hcol, hnan⟩
    have hbody : ((p.2.length == (dictGetCols e.featureValues p.1).length) &&
        ((List.zip p.2 (dictGetCols e.featureValues p.1)).all
          fun c => np_array_equal c.1 c.2)) = false := by
      cases hleq : (p.2.length == (dictGetCols e.featureValues p.1).length) with
      | false => rw [Bool.false_and]
      | true =>
          rw [Bool.true_and]
          exact zip_cols_all_false_of_nan p.2 _ col hcol hnan
            (beq_iff_eq.mp hleq)
    have hD : (e.featureValues.all fun r =>
        r.2.length == (dictGetCols e.featureValues r.1).length &&
        ((List.zip r.2 (dictGetCols e.featureValues r.1)).all
          fun c => np_array_equal c.1 c.2)) = false :=
      List.all_eq_false.mpr ⟨p, hp, by simp [hbody]⟩
    unfold numpyEventEq
    rw [hD, Bool.and_false]

/-- C5 witness: a sampling whose timestamp array holds a NaN is not equal
to itself, and event data with a NaN feature value at the same position in
both compared instances (here: compared with itself) is not equal. -/
theorem C5_witness :
    numpySamplingEq ⟨["store_id"], [([0], [NpFloat.val 1, NpFloat.nan])]⟩
      (.sampling ⟨["store_id"], [([0], [NpFloat.val 1, NpFloat.nan])]⟩) = false ∧
    numpyEventEq
      ⟨⟨["k"], [([0], [NpFloat.val 1])]⟩, ["sales"], [([0], [[NpFloat.nan]])]⟩
      ⟨⟨["k"], [([0], [NpFloat.val 1])]⟩, ["sales"], [([0], [[NpFloat.nan]])]⟩
      = false := by
  obtain ⟨h1, h2⟩ := C5_nan_never_equal
  exact ⟨h1 ⟨["store_id"], [([0], [NpFloat.val 1, NpFloat.nan])]⟩ (by decide)
      ⟨([0], [NpFloat.val 1, NpFloat.nan]), by simp, by simp⟩,
    h2 ⟨⟨["k"], [([0], [NpFloat.val 1])]⟩, ["sales"], [([0], [[NpFloat.nan]])]⟩
      ⟨([0], [[NpFloat.nan]]), by simp, [NpFloat.nan], by simp, by simp⟩⟩

/-- C4 counterexample: INT32 is in `DivideScalarOperator`'s
`supported_value_dtypes`, yet constructing the operator on an INT32 feature
does not succeed — it fails with the integer-division error — refuting the
claim that construction on a supported dtype succeeds. -/
theorem C4_counterexample :
    DType.INT32 ∈ divideSupportedValueDtypes ∧
    DivideScalarOperator ⟨[⟨"sales", .INT32⟩], ⟨0⟩⟩ (.pyFloat 2) false
      = .error (.integerDivision "sales" .INT32) := by
  exact ⟨by decide, rfl⟩

/-- C4 (amended): for feature dtypes among
{FLOAT32, FLOAT64, INT32, INT64} — all four of which are listed in
`supported_value_dtypes` of both operators — `SubtractScalarOperator`
construction succeeds and yields an output Event with identical feature
names and the same Sampling reference as the input; `DivideScalarOperator`
behaves the same on the float dtypes, but on an event holding an INT32 or
INT64 feature it fails with the integer-division configuration error naming
that feature and dtype, even though that dtype is in its
`supported_value_dtypes`. -/
theorem C4_amended_supported_dtypes (e : Event) (v : PyScalar) (b : Bool)
    (h4 : ∀ f ∈ e.features, f.dtype ∈ subtractSupportedValueDtypes) :
    (∀ d ∈ ([.FLOAT32, .FLOAT64, .INT32, .INT64] : List DType),
      d ∈ subtractSupportedValueDtypes ∧ d ∈ divideSupportedValueDtypes) ∧
    (∃ op, SubtractScalarOperator e v b = .ok op ∧
      op.output.features.map Feature.name = e.features.map Feature.name ∧
      op.output.sampling = e.sampling) ∧
    ((∀ f ∈ e.features, f.dtype = DType.FLOAT32 ∨ f.dtype = DType.FLOAT64) →
      ∃ op, DivideScalarOperator e v b = .ok op ∧
        op.output.features.map Feature.name = e.features.map Feature.name ∧
        op.output.sampling = e.sampling) ∧
    ((∃ f ∈ e.features, f.dtype = DType.INT32 ∨ f.dtype = DType.INT64) →
      ∃ f ∈ e.features, (f.dtype = DType.INT32 ∨ f.dtype = DType.INT64) ∧
        f.dtype ∈ divideSupportedValueDtypes ∧
        DivideScalarOperator e v b = .error (.integerDivision f.name f.dtype)) := by
  have hsupp : ∀ f ∈ e.features, f.dtype ∈ divideSupportedValueDtypes := by
    intro f hf
    have := h4 f hf
    simpa [subtractSupportedValueDtypes, divideSupportedValueDtypes] using this
  refine ⟨by decide,
    ⟨_, subtractScalarOperator_ok e v b h4, rfl, rfl⟩,
    fun hfl => ⟨_, divideScalarOperator_ok e v b hfl, rfl, rfl⟩,
    fun hint => ?_⟩
  obtain ⟨f1, hf1, hd1⟩ := hint
  have hsome : (e.features.find?
      (fun f => f.dtype == DType.INT32 || f.dtype == DType.INT64)).isSome := by
    rw [List.find?_isSome]
    exact ⟨f1, hf1, by rcases hd1 with h1 | h1 <;> simp [h1]⟩
  obtain ⟨f2, hfind2⟩ := Option.isSome_iff_exists.mp hsome
  have hf2int : f2.dtype = DType.INT32 ∨ f2.dtype = DType.INT64 := by
    simpa using List.find?_some hfind2
  refine ⟨f2, List.mem_of_find?_eq_some hfind2, hf2int, ?_, ?_⟩
  · rcases hf2int with h1 | h1 <;> simp [h1, divideSupportedValueDtypes]
  · unfold DivideScalarOperator
    rw [baseArithmeticScalarInit_ok _ e v b hsupp, except_ok_bind, hfind2]

/-- C4 witness: an event with a FLOAT32 feature and an INT32 feature (both
dtypes supported by both operators) — subtract construction succeeds with
names and sampling preserved, divide construction fails on the INT32
feature. -/
theorem C4_witness :
    (∃ op, SubtractScalarOperator ⟨[⟨"a", .FLOAT32⟩, ⟨"b", .INT32⟩], ⟨7⟩⟩
        (.pyInt 3) false = .ok op ∧
      op.output.features.map Feature.name
        = (Event.mk [⟨"a", .FLOAT32⟩, ⟨"b", .INT32⟩] ⟨7⟩).features.map Feature.name ∧
      op.output.sampling = (Event.mk [⟨"a", .FLOAT32⟩, ⟨"b", .INT32⟩] ⟨7⟩).sampling) ∧
    (∃ f ∈ (Event.mk [⟨"a", .FLOAT32⟩, ⟨"b", .INT32⟩] ⟨7⟩).features,
      (f.dtype = DType.INT32 ∨ f.dtype = DType.INT64) ∧
      f.dtype ∈ divideSupportedValueDtypes ∧
      DivideScalarOperator ⟨[⟨"a", .FLOAT32⟩, ⟨"b", .INT32⟩], ⟨7⟩⟩ (.pyInt 3) false
        = .error (.integerDivision f.name f.dtype)) := by
  obtain ⟨-, h2, -, h4⟩ :=
    C4_amended_supported_dtypes ⟨[⟨"a", .FLOAT32⟩, ⟨"b", .INT32⟩], ⟨7⟩⟩
      (.pyInt 3) false (by decide)
  exact ⟨h2, h4 ⟨⟨"b", .INT32⟩, by simp, Or.inl rfl⟩⟩

/-- C6: when the target Event's concrete data is directly supplied in the
evaluator's input mapping, `evaluate` returns exactly that supplied data,
and the operator schedule for the target is empty — the event is treated as
a leaf even if it has a producing operator, and no operator is executed for
it. -/
theorem C6_evaluator_identity {α : Type} (g : Graph)
    (impl : Nat → List α → Option (List α)) (input_data : List (Nat × α))
    (target : Nat) (d : α) (h : lookupData input_data target = some d) :
    evaluate g impl input_data target = some d ∧
    scheduleEvent g (input_data.map Prod.fst) (g.operators.length + 1) target
      = [] := by
  have htmem : target ∈ input_data.map Prod.fst := by
    unfold lookupData at h
    cases hf : input_data.find? (fun p => p.1 == target) with
    | none => rw [hf] at h; cases h
    | some p =>
        have hmem := List.mem_of_find?_eq_some hf
        have hpt : p.1 = target := by simpa using List.find?_some hf
        exact hpt ▸ List.mem_map_of_mem Prod.fst hmem
  have hsched : scheduleEvent g (input_data.map Prod.fst)
      (g.operators.length + 1) target = [] := by
    simp [scheduleEvent, htmem]
  refine ⟨?_, hsched⟩
  simp [evaluate, hsched, runOps, h]

/-- C6 witness: event 2 has a producing operator (operator 1) in the graph,
yet because concrete data for it is supplied, `evaluate` returns the
supplied data and schedules no operator. -/
theorem C6_witness :
    evaluate ⟨[⟨1, [0], [2]⟩]⟩ (fun _ ins => some ins) [(2, 5)] 2
      = some (5 : ℕ) ∧
    scheduleEvent ⟨[⟨1, [0], [2]⟩]⟩ [2] 2 2 = [] := by
  exact C6_evaluator_identity ⟨[⟨1, [0], [2]⟩]⟩ (fun _ ins => some ins)
    [(2, 5)] 2 5 rfl

/-- C7: in the end-to-end select scenario (three index keys, feature
`sales` among `sales`, `costs`, `weather`), evaluating the select operator
that keeps only `sales` through the evaluator returns exactly the concrete
data built directly from the source table restricted to the narrower
schema: only the `sales` column remains and the Sampling (index keys and
timestamps) is unchanged from the input. -/
theorem C7_select_scenario :
    evaluate selectGraph selectImpl [(0, selectScenarioInput)] 2
      = some selectScenarioExpected ∧
    selectScenarioExpected.sampling = selectScenarioInput.sampling ∧
    selectScenarioExpected.featureNames = ["sales"] ∧
    selectFeatures ["sales"] selectScenarioInput = selectScenarioExpected := by
  exact ⟨by decide, rfl, rfl, by decide⟩

/-- C8: registering an operator class under a definition key that is
already registered fails with the duplicate-key registry error at
registration time, and looking up a key that was never registered fails
with the not-found error. -/
theorem C8_registry_errors :
    (∀ (r r2 : OperatorRegistry) (key cls cls2 : String),
      register_operator r key cls = .ok r2 →
      register_operator r2 key cls2 = .error (.duplicateKey key)) ∧
    (∀ (r : OperatorRegistry) (key : String),
      (∀ p ∈ r.entries, p.1 ≠ key) →
      lookup_operator r key = .error (.notFound key)) := by
  constructor
  · intro r r2 key cls cls2 hok
    unfold register_operator at hok ⊢
    by_cases hc : r.entries.any (fun p => p.1 == key) = true
    · rw [if_pos hc] at hok
      cases hok
    · rw [if_neg hc] at hok
      injection hok with hok2
      rw [← hok2]
      rw [if_pos (by simp)]
  · intro r key h
    unfold lookup_operator
    have hnone : r.entries.find? (fun p => p.1 == key) = none := by
      rw [List.find?_eq_none]
      intro p hp
      simpa using h p hp
    rw [hnone]

/-- C8 witness: re-registering the divide operator's key fails with the
duplicate-key error; looking up an unregistered key fails with the
not-found error. -/
theorem C8_witness :
    register_operator ⟨[("DIVISION_SCALAR", "DivideScalarOperator")]⟩
        "DIVISION_SCALAR" "DivideScalarOperator2"
      = .error (.duplicateKey "DIVISION_SCALAR") ∧
    lookup_operator ⟨[]⟩ "SUBTRACTION_SCALAR"
      = .error (.notFound "SUBTRACTION_SCALAR") := by
  obtain ⟨h1, h2⟩ := C8_registry_errors
  exact ⟨h1 ⟨[]⟩ ⟨[("DIVISION_SCALAR", "DivideScalarOperator")]⟩
      "DIVISION_SCALAR" "DivideScalarOperator" "DivideScalarOperator2" rfl,
    h2 ⟨[]⟩ "SUBTRACTION_SCALAR" (by simp)⟩

/-- C10: a Python boolean in the scalar operand position passes the
`isinstance(x, (float, int))` check (bool is a subclass of int), so
`subtract_scalar(event, True)` and `divide_scalar(event, True)` are not
rejected with the invalid-input-types error: they construct the operator
with the boolean as the scalar value, arithmetically 1 or 0. -/
theorem C10_bool_scalar_accepted (e : Event) (hb : Bool)
    (hsub : ∀ f ∈ e.features, f.dtype ∈ subtractSupportedValueDtypes)
    (hdiv : ∀ f ∈ e.features, f.dtype = DType.FLOAT32 ∨ f.dtype = DType.FLOAT64) :
    Operand.isScalarInstance (.scalar (.pyBool hb)) = true ∧
    (∃ op, SubtractScalarOperator e (.pyBool hb) false = .ok op ∧
      subtract_scalar (.event e) (.scalar (.pyBool hb)) = .ok op.output ∧
      op.value = .pyBool hb ∧ op.value.toRat = (if hb then 1 else 0)) ∧
    (∃ op, DivideScalarOperator e (.pyBool hb) false = .ok op ∧
      divide_scalar (.event e) (.scalar (.pyBool hb)) = .ok op.output ∧
      op.value = .pyBool hb ∧ op.value.toRat = (if hb then 1 else 0)) := by
  refine ⟨rfl,
    ⟨_, subtractScalarOperator_ok e (.pyBool hb) false hsub, ?_, rfl, rfl⟩,
    ⟨_, divideScalarOperator_ok e (.pyBool hb) false hdiv, ?_, rfl, rfl⟩⟩
  · rw [show subtract_scalar (.event e) (.scalar (.pyBool hb))
        = (SubtractScalarOperator e (.pyBool hb) false).map ScalarOp.output from rfl,
      subtractScalarOperator_ok e (.pyBool hb) false hsub]
    rfl
  · rw [show divide_scalar (.event e) (.scalar (.pyBool hb))
        = (DivideScalarOperator e (.pyBool hb) false).map ScalarOp.output from rfl,
      divideScalarOperator_ok e (.pyBool hb) false hdiv]
    rfl

/-- C10 witness: `subtract_scalar(event, True)` on a FLOAT64 event
constructs the operator, with the boolean scalar worth 1. -/
theorem C10_witness :
    ∃ op, SubtractScalarOperator ⟨[⟨"f", .FLOAT64⟩], ⟨0⟩⟩ (.pyBool true) false
        = .ok op ∧
      subtract_scalar (.event ⟨[⟨"f", .FLOAT64⟩], ⟨0⟩⟩) (.scalar (.pyBool true))
        = .ok op.output ∧
      op.value.toRat = 1 := by
  obtain ⟨-, ⟨op, h1, h2, -, h4⟩, -⟩ :=
    C10_bool_scalar_accepted ⟨[⟨"f", .FLOAT64⟩], ⟨0⟩⟩ true (by decide) (by decide)
  exact ⟨op, h1, h2, by simpa using h4⟩

end Temporian
